import Mathlib

/-!
Shallow embedding of the core of the VehicleDetectorApp repository
(`VehicleDetectionService`): the detection decoder (`postProcessDetections`),
the simulation generator (`simulateDetection`), the aggregation state
(`vehicleCount`, `detectedVehicles`, `updateVehicleCounts`, `resetCounts`,
`getVehicleCount`, `getDetectedVehicles`), and the model lifecycle
(`initialize`, `isRealModelLoaded`, `detectVehicles`).

Modelling conventions:
- JavaScript numbers are modelled as exact rationals (`ℚ`).
- `Math.random()` results are modelled as an explicit stream `r : ℕ → ℚ` of
  the values returned in call order; real `Math.random()` always lies in
  `[0, 1)`, which appears as a hypothesis where a theorem needs it.
- `Date.now()` is modelled as an explicit parameter `now : ℕ`.
- Array reads are modelled with `List.get?` / `List.getD`; a JS read past
  the end of an array yields `undefined`, and `undefined > 0.3` is `false`,
  which is what the `List.get?`-based guard reproduces.  Out-of-range box
  reads (which produce `NaN` coordinates in JS) are modelled with default
  `0`; theorems about wrong-length outputs assert only the presence,
  length, id, type and confidence of the resulting detections, never the
  numeric box values of such reads.
- A `try`/`catch` that absorbs an error and returns a fallback value is
  modelled by an `Except` result followed by the fallback on `.error`.
-/

/-- The `VehicleType` enum of the source (seven string values). -/
inductive VehicleType where
  | car
  | bus
  | truck
  | motorcycle
  | bicycle
  | van
  | unknown
  deriving DecidableEq, Repr

/-- Pixel-coordinate bounding box `{x, y, width, height}`. -/
structure BBox where
  x : ℚ
  y : ℚ
  width : ℚ
  height : ℚ
  deriving DecidableEq, Repr

/-- The `DetectedVehicle` record of the source.  The `timestamp` field
(`new Date()`) is modelled by the `now` parameter already embedded in `id`;
the optional `licensePlate` placeholder string is kept. -/
structure DetectedVehicle where
  id : String
  type : VehicleType
  confidence : ℚ
  bbox : BBox
  licensePlate : String
  deriving DecidableEq, Repr

/-- The `VehicleCount` record: one counter per `VehicleType` plus `total`. -/
structure VehicleCount where
  car : ℕ
  bus : ℕ
  truck : ℕ
  motorcycle : ℕ
  bicycle : ℕ
  van : ℕ
  unknown : ℕ
  total : ℕ
  deriving DecidableEq, Repr

/-- Read the per-category counter of a `VehicleCount`
(`vehicleCount[detection.type]`). -/
def VehicleCount.get (vc : VehicleCount) : VehicleType → ℕ
  | .car => vc.car
  | .bus => vc.bus
  | .truck => vc.truck
  | .motorcycle => vc.motorcycle
  | .bicycle => vc.bicycle
  | .van => vc.van
  | .unknown => vc.unknown

/-- `this.vehicleCount[detection.type]++; this.vehicleCount.total++`. -/
def VehicleCount.incr (vc : VehicleCount) : VehicleType → VehicleCount
  | .car => { vc with car := vc.car + 1, total := vc.total + 1 }
  | .bus => { vc with bus := vc.bus + 1, total := vc.total + 1 }
  | .truck => { vc with truck := vc.truck + 1, total := vc.total + 1 }
  | .motorcycle => { vc with motorcycle := vc.motorcycle + 1, total := vc.total + 1 }
  | .bicycle => { vc with bicycle := vc.bicycle + 1, total := vc.total + 1 }
  | .van => { vc with van := vc.van + 1, total := vc.total + 1 }
  | .unknown => { vc with unknown := vc.unknown + 1, total := vc.total + 1 }

/-- The all-zero `VehicleCount` the service is constructed with. -/
def zeroCount : VehicleCount := ⟨0, 0, 0, 0, 0, 0, 0, 0⟩

/-- The 90-entry `COCO_CLASSES` label table (gaps are empty strings). -/
def COCO_CLASSES : List String :=
  ["person", "bicycle", "car", "motorcycle", "airplane", "bus", "train", "truck", "boat",
   "traffic light", "fire hydrant", "", "stop sign", "parking meter", "bench", "bird",
   "cat", "dog", "horse", "sheep", "cow", "elephant", "bear", "zebra", "giraffe",
   "", "backpack", "umbrella", "", "", "handbag", "tie", "suitcase", "frisbee",
   "skis", "snowboard", "sports ball", "kite", "baseball bat", "baseball glove",
   "skateboard", "surfboard", "tennis racket", "bottle", "", "wine glass", "cup",
   "fork", "knife", "spoon", "bowl", "banana", "apple", "sandwich", "orange",
   "broccoli", "carrot", "hot dog", "pizza", "donut", "cake", "chair", "couch",
   "potted plant", "bed", "", "dining table", "", "", "toilet", "", "tv",
   "laptop", "mouse", "remote", "keyboard", "cell phone", "microwave", "oven",
   "toaster", "sink", "refrigerator", "", "book", "clock", "vase", "scissors",
   "teddy bear", "hair drier", "toothbrush"]

/-- `this.COCO_CLASSES[classIndex] || 'unknown'`: an out-of-range index gives
`undefined` and a gap gives `''`, both falsy, so both fall back to
`'unknown'`. -/
def cocoClassName (classIndex : ℕ) : String :=
  let s := COCO_CLASSES.getD classIndex ""
  if s = "" then "unknown" else s

/-- The `VEHICLE_CLASS_MAP` lookup; `none` models a key that is absent
(the JS lookup yields `undefined`, which is falsy in the guard). -/
def VEHICLE_CLASS_MAP (className : String) : Option VehicleType :=
  if className = "bicycle" then some .bicycle
  else if className = "car" then some .car
  else if className = "motorcycle" then some .motorcycle
  else if className = "bus" then some .bus
  else if className = "truck" then some .truck
  else none

/-- The id template `vehicle_{Date.now()}_{i}`. -/
def mkVehicleId (now i : ℕ) : String :=
  "vehicle_" ++ toString now ++ "_" ++ toString i

/-- `String.prototype.charAt`: a one-character string, or `""` out of
range. -/
def charAt (s : String) (i : ℕ) : String :=
  match s.toList.get? i with
  | some c => String.mk [c]
  | none => ""

/-- `generateLicensePlate`: three random letters then four random digits;
`r` is the stream of `Math.random()` values and `base` the position of its
first draw. -/
def generateLicensePlate (r : ℕ → ℚ) (base : ℕ) : String :=
  let letters := "ABCDEFGHIJKLMNOPQRSTUVWXYZ"
  let numbers := "0123456789"
  charAt letters ⌊r base * 26⌋₊ ++
  charAt letters ⌊r (base + 1) * 26⌋₊ ++
  charAt letters ⌊r (base + 2) * 26⌋₊ ++
  charAt numbers ⌊r (base + 3) * 10⌋₊ ++
  charAt numbers ⌊r (base + 4) * 10⌋₊ ++
  charAt numbers ⌊r (base + 5) * 10⌋₊ ++
  charAt numbers ⌊r (base + 6) * 10⌋₊

/-- The four parallel data arrays read from the prediction tensors:
`boxes` (flat, row `i` at indices `i*4 .. i*4+3`, normalized
`[y1, x1, y2, x2]`), `classes`, `scores`, and `numDetections` (whose first
element is the valid-detection count `K`). -/
structure RawOutput where
  boxes : List ℚ
  classes : List ℕ
  scores : List ℚ
  numDetections : List ℕ
  deriving DecidableEq, Repr

/-- The valid-detection count `maxDetections = numDetections[0]`; an empty
array gives `undefined`, so the loop does not run (modelled by `0`). -/
def RawOutput.maxDetections (raw : RawOutput) : ℕ :=
  raw.numDetections.getD 0 0

/-- One iteration of the `postProcessDetections` loop at index `i`:
`some` detection when `scores[i] > 0.3` and the class maps to a vehicle
category, `none` otherwise (including a read past the end of `scores`,
where `undefined > 0.3` is `false`). -/
def decodeEntry (now : ℕ) (raw : RawOutput) (i : ℕ) : Option DetectedVehicle :=
  match raw.scores.get? i with
  | none => none
  | some score =>
    let className :=
      match raw.classes.get? i with
      | some c => cocoClassName c
      | none => "unknown"
    if score > 3/10 then
      match VEHICLE_CLASS_MAP className with
      | some t =>
        some { id := mkVehicleId now i
               type := t
               confidence := score
               bbox := { x := raw.boxes.getD (i * 4 + 1) 0 * 320
                         y := raw.boxes.getD (i * 4) 0 * 320
                         width := (raw.boxes.getD (i * 4 + 3) 0 - raw.boxes.getD (i * 4 + 1) 0) * 320
                         height := (raw.boxes.getD (i * 4 + 2) 0 - raw.boxes.getD (i * 4) 0) * 320 }
               licensePlate := "" }
      | none => none
    else none

/-- The `postProcessDetections` loop body over `i = 0 .. maxDetections-1`,
in index order. -/
def postProcessCore (now : ℕ) (raw : RawOutput) : List DetectedVehicle :=
  (List.range raw.maxDetections).filterMap (decodeEntry now raw)

/-- The shape of the `predictions` tensor list handed to
`postProcessDetections`: either the four data arrays were all readable
(`wellFormed`), or tensors were missing (fewer than four, so
`predictions[k].data()` throws a `TypeError` — the only line of the
function that can throw).  Note that a *wrong-length* output is a
`wellFormed` value whose lists are short: in the source such an output
throws nothing, because every out-of-range element read yields
`undefined`. -/
inductive Predictions where
  | wellFormed (raw : RawOutput)
  | malformed
  deriving DecidableEq, Repr

/-- The body of `postProcessDetections` before its `catch`: the decoded
list, or the error raised while reading a malformed output. -/
def decodeResult (now : ℕ) (p : Predictions) : Except String (List DetectedVehicle) :=
  match p with
  | .wellFormed raw => .ok (postProcessCore now raw)
  | .malformed => .error "TypeError"

/-- `postProcessDetections` as seen by its caller: the `catch` block logs
the error and returns `[]`. -/
def postProcessDetections (now : ℕ) (p : Predictions) : List DetectedVehicle :=
  match decodeResult now p with
  | .ok ds => ds
  | .error _ => []

/-- `Object.values(VehicleType).filter(type => type !== VehicleType.UNKNOWN)`
in declaration order. -/
def vehicleTypes : List VehicleType :=
  [.car, .bus, .truck, .motorcycle, .bicycle, .van]

/-- One simulated detection (loop index `i`).  Each detection consumes 13
`Math.random()` draws in source order: type, confidence, x, y, width,
height, then seven plate draws; the call's draws 0 and 1 were the
empty-check and the count, so detection `i` starts at `2 + 13*i`.
`vehicleTypes` has six entries and the index `⌊r*6⌋` is in range whenever
`r ∈ [0,1)`; the `.unknown` default is unreachable for such draws. -/
def simulateOne (now : ℕ) (r : ℕ → ℚ) (i : ℕ) : DetectedVehicle :=
  let base := 2 + 13 * i
  { id := mkVehicleId now i
    type := vehicleTypes.getD ⌊r base * 6⌋₊ .unknown
    confidence := 7/10 + r (base + 1) * (3/10)
    bbox := { x := r (base + 2) * 300
              y := r (base + 3) * 300
              width := 50 + r (base + 4) * 100
              height := 30 + r (base + 5) * 80 }
    licensePlate := generateLicensePlate r (base + 6) }

/-- `simulateDetection`: empty when the first draw is `< 0.3`, otherwise
`Math.floor(Math.random() * 3) + 1` detections. -/
def simulateDetection (now : ℕ) (r : ℕ → ℚ) : List DetectedVehicle :=
  if r 0 < 3/10 then []
  else
    let numDetections := ⌊r 1 * 3⌋₊ + 1
    (List.range numDetections).map (simulateOne now r)

/-- The mutable fields of the `VehicleDetectionService` instance.  The
`model` reference is folded into `isModelLoaded`: `initialize` sets both on
success and the guard in `detectVehicles` tests their conjunction. -/
structure ServiceState where
  isModelLoaded : Bool
  vehicleCount : VehicleCount
  detectedVehicles : List DetectedVehicle
  deriving DecidableEq, Repr

/-- The freshly constructed service: flag down, all counters zero, empty
history. -/
def initialState : ServiceState :=
  { isModelLoaded := false, vehicleCount := zeroCount, detectedVehicles := [] }

/-- Outcome of the model-acquisition attempt inside `initialize`
(`tf.ready()` + `tf.loadGraphModel(...)`): success, or a thrown error. -/
inductive LoadOutcome where
  | success
  | failure
  deriving DecidableEq, Repr

/-- `initialize`: on success the flag is set; any failure is caught inside
`initialize` itself (the `catch` logs and sets the flag to `false`), so the
function is total — no exception reaches the caller. -/
def initializeService (st : ServiceState) (o : LoadOutcome) : ServiceState :=
  match o with
  | .success => { st with isModelLoaded := true }
  | .failure => { st with isModelLoaded := false }

/-- `isRealModelLoaded`. -/
def isRealModelLoaded (st : ServiceState) : Bool :=
  st.isModelLoaded

/-- `updateVehicleCounts`: per detection, bump its category counter and
`total` together. -/
def updateVehicleCounts (vc : VehicleCount) (ds : List DetectedVehicle) : VehicleCount :=
  ds.foldl (fun c d => c.incr d.type) vc

/-- `runRealDetection`: image loading / preprocessing / inference may
throw; the `catch` returns `[]`.  On success the predictions go through
`postProcessDetections`. -/
def runRealDetection (now : ℕ) (outcome : Except String Predictions) : List DetectedVehicle :=
  match outcome with
  | .ok p => postProcessDetections now p
  | .error _ => []

/-- `detectVehicles`: the real path when the model is loaded, the
simulation path otherwise; either way the detections update the counters
and are appended to the stored history, and are returned. -/
def detectVehicles (st : ServiceState) (now : ℕ)
    (outcome : Except String Predictions) (r : ℕ → ℚ) :
    ServiceState × List DetectedVehicle :=
  let ds := if st.isModelLoaded then runRealDetection now outcome
            else simulateDetection now r
  ({ st with vehicleCount := updateVehicleCounts st.vehicleCount ds
             detectedVehicles := st.detectedVehicles ++ ds }, ds)

/-- `getVehicleCount`: `{ ...this.vehicleCount }` — a copy of a record of
plain numbers; in the pure embedding the copy is the value itself. -/
def getVehicleCount (st : ServiceState) : VehicleCount :=
  st.vehicleCount

/-- `getDetectedVehicles`: `[...this.detectedVehicles]` — a copy of the
history array. -/
def getDetectedVehicles (st : ServiceState) : List DetectedVehicle :=
  st.detectedVehicles

/-- `resetCounts`: every key of `vehicleCount` (the seven categories and
`total`) is set to `0` and the history array is replaced by `[]`. -/
def resetCounts (st : ServiceState) : ServiceState :=
  { st with vehicleCount := zeroCount, detectedVehicles := [] }

/-- One externally visible operation on the service, carrying the
environment inputs (timestamp, model-load outcome, inference outcome,
random draws) that call would consume. -/
inductive Op where
  | init (o : LoadOutcome)
  | detect (now : ℕ) (outcome : Except String Predictions) (r : ℕ → ℚ)
  | reset

/-- Apply one operation to the service state. -/
def stepOp (st : ServiceState) : Op → ServiceState
  | .init o => initializeService st o
  | .detect now outcome r => (detectVehicles st now outcome r).1
  | .reset => resetCounts st

/-- The state after a sequence of operations from the freshly constructed
service. -/
def runOps (ops : List Op) : ServiceState :=
  ops.foldl stepOp initialState

/-- All seven values of the `VehicleType` enum. -/
def allVehicleTypes : List VehicleType :=
  [.car, .bus, .truck, .motorcycle, .bicycle, .van, .unknown]

/-- The count invariant: `total` equals the sum of the per-category
counters over all categories. -/
def countInvariant (vc : VehicleCount) : Prop :=
  vc.total = (allVehicleTypes.map vc.get).sum

/-- A well-formed raw output with one valid detection: class 2 (`car`),
score `0.9`, normalized box `[y1=0.1, x1=0.2, y2=0.5, x2=0.6]`. -/
def rawC4 : RawOutput :=
  { boxes := [1/10, 2/10, 5/10, 6/10], classes := [2], scores := [9/10],
    numDetections := [1] }

/-- `rawC4` with the score replaced by exactly `0.3`. -/
def rawScore03 : RawOutput :=
  { rawC4 with scores := [3/10] }

/-- `rawC4` with the score replaced by `0.30001`. -/
def rawScore030001 : RawOutput :=
  { rawC4 with scores := [30001/100000] }

/-- `rawC4` with arbitrary extra entries appended beyond the valid count
`K = 1`. -/
def rawTailJunk : RawOutput :=
  { boxes := [1/10, 2/10, 5/10, 6/10, 9, 9, 9, 9], classes := [2, 5],
    scores := [9/10, 99/100], numDetections := [1] }

/-- `rawC4` with the valid count set to `K = 0`. -/
def rawK0 : RawOutput :=
  { rawC4 with numDetections := [0] }

/-- Two vehicle-class entries whose scores are both `≤ 0.3`. -/
def rawLow : RawOutput :=
  { boxes := [1/10, 2/10, 5/10, 6/10, 0, 0, 1, 1], classes := [2, 5],
    scores := [3/10, 1/5], numDetections := [2] }

/-- A `Math.random()` stream whose draws are all `1/2`. -/
def halfStream : ℕ → ℚ := fun _ => 1/2

/-- A stream whose first draw avoids the empty branch, whose second draw
selects one detection, and whose remaining draws are `0` (type index `0`,
i.e. `car`). -/
def simStream9 : ℕ → ℚ := fun k => if k = 0 then 1/2 else 0

/-- A stream whose first two draws are `1/2` (non-empty, two detections)
and whose remaining draws are `(2*t+1)/12`, so that every type draw
selects index `t` of `vehicleTypes`. -/
def simTypeStream (t : ℕ) : ℕ → ℚ :=
  fun k => if k < 2 then 1/2 else (2 * t + 1) / 12

/-- `simTypeStream 5`: every simulated detection gets type index `5`,
i.e. `van`. -/
def vanStream : ℕ → ℚ := simTypeStream 5

/-- The single detection decoded from `rawC4` at `Date.now() = 1000`. -/
def carDet1000 : DetectedVehicle :=
  { id := "vehicle_1000_0", type := .car, confidence := 9/10,
    bbox := ⟨64, 32, 128, 128⟩, licensePlate := "" }

/-- The single detection simulated from `simStream9` at `Date.now() = 1000`. -/
def simDet1000 : DetectedVehicle :=
  { id := "vehicle_1000_0", type := .car, confidence := 7/10,
    bbox := ⟨0, 0, 50, 30⟩, licensePlate := "AAA0000" }

/-- An empty but well-formed raw output (four readable arrays, zero valid
detections). -/
def emptyRaw : RawOutput :=
  { boxes := [], classes := [], scores := [], numDetections := [] }

/-- A wrong-length raw output: four readable arrays, but `boxes` is empty
while `classes`/`scores` still hold one valid vehicle entry and `K = 1`.
In the source this throws nothing: the box reads all yield `undefined`
(`NaN` after arithmetic) and a detection is still emitted. -/
def rawWrongLen : RawOutput :=
  { boxes := [], classes := [2], scores := [9/10], numDetections := [1] }

/-! ## Helper lemmas -/

theorem VehicleCount_incr_invariant (vc : VehicleCount) (t : VehicleType)
    (h : countInvariant vc) : countInvariant (vc.incr t) := by
  cases t <;>
    simp only [countInvariant, VehicleCount.incr, VehicleCount.get, allVehicleTypes,
      List.map_cons, List.map_nil, List.sum_cons, List.sum_nil] at h ⊢ <;>
    omega

theorem updateVehicleCounts_invariant (ds : List DetectedVehicle) (vc : VehicleCount)
    (h : countInvariant vc) : countInvariant (updateVehicleCounts vc ds) := by
  induction ds generalizing vc with
  | nil => exact h
  | cons d ds ih => exact ih _ (VehicleCount_incr_invariant vc d.type h)

theorem zeroCount_invariant : countInvariant zeroCount := by
  simp [countInvariant, zeroCount, allVehicleTypes, VehicleCount.get]

theorem stepOp_invariant (st : ServiceState) (op : Op)
    (h : countInvariant st.vehicleCount) : countInvariant (stepOp st op).vehicleCount := by
  cases op with
  | init o => cases o <;> exact h
  | detect now outcome r =>
      exact updateVehicleCounts_invariant _ _ h
  | reset => exact zeroCount_invariant

theorem foldl_stepOp_invariant (ops : List Op) (st : ServiceState)
    (h : countInvariant st.vehicleCount) :
    countInvariant (ops.foldl stepOp st).vehicleCount := by
  induction ops generalizing st with
  | nil => exact h
  | cons op ops ih => exact ih _ (stepOp_invariant st op h)

/-! ## C1 and C2 -/

/-- C1: after any sequence of operations (initialization with either
outcome, `detectVehicles` calls on either the real or the simulation path,
and resets) starting from the initial state, the count snapshot returned
by `getVehicleCount` satisfies `total = Σ counts[c]` over all seven
categories. -/
theorem C1_count_invariant (ops : List Op) :
    countInvariant (getVehicleCount (runOps ops)) :=
  foldl_stepOp_invariant ops initialState zeroCount_invariant

/-- C2: for every prior state, `resetCounts` followed by the accessors
yields all-zero per-category counts, a zero total, and an empty history. -/
theorem C2_reset_clears (st : ServiceState) :
    (∀ t, (getVehicleCount (resetCounts st)).get t = 0) ∧
    (getVehicleCount (resetCounts st)).total = 0 ∧
    getDetectedVehicles (resetCounts st) = [] := by
  refine ⟨fun t => ?_, rfl, rfl⟩
  cases t <;> rfl

/-! ## Decoder helper lemmas -/

theorem decodeEntry_congr (now : ℕ) (raw raw' : RawOutput) (i : ℕ)
    (hs : raw.scores.get? i = raw'.scores.get? i)
    (hc : raw.classes.get? i = raw'.classes.get? i)
    (hb0 : raw.boxes.getD (i * 4) 0 = raw'.boxes.getD (i * 4) 0)
    (hb1 : raw.boxes.getD (i * 4 + 1) 0 = raw'.boxes.getD (i * 4 + 1) 0)
    (hb2 : raw.boxes.getD (i * 4 + 2) 0 = raw'.boxes.getD (i * 4 + 2) 0)
    (hb3 : raw.boxes.getD (i * 4 + 3) 0 = raw'.boxes.getD (i * 4 + 3) 0) :
    decodeEntry now raw i = decodeEntry now raw' i := by
  unfold decodeEntry
  rw [hs, hc, hb0, hb1, hb2, hb3]

theorem postProcessCore_first_K (now : ℕ) (raw raw' : RawOutput)
    (hK : raw.maxDetections = raw'.maxDetections)
    (hs : ∀ i < raw.maxDetections, raw.scores.get? i = raw'.scores.get? i)
    (hc : ∀ i < raw.maxDetections, raw.classes.get? i = raw'.classes.get? i)
    (hb : ∀ j < raw.maxDetections * 4, raw.boxes.getD j 0 = raw'.boxes.getD j 0) :
    postProcessCore now raw = postProcessCore now raw' := by
  unfold postProcessCore
  rw [← hK]
  apply List.filterMap_congr
  intro i hi
  rw [List.mem_range] at hi
  exact decodeEntry_congr now raw raw' i (hs i hi) (hc i hi)
    (hb _ (by omega)) (hb _ (by omega)) (hb _ (by omega)) (hb _ (by omega))

theorem postProcessCore_K0 (now : ℕ) (raw : RawOutput)
    (hK : raw.maxDetections = 0) :
    postProcessCore now raw = [] := by
  unfold postProcessCore
  rw [hK]
  rfl

theorem postProcessCore_low_scores (now : ℕ) (raw : RawOutput)
    (h : ∀ i < raw.maxDetections, ∀ s, raw.scores.get? i = some s → s ≤ 3/10) :
    postProcessCore now raw = [] := by
  unfold postProcessCore
  have hnone : ∀ i ∈ List.range raw.maxDetections, decodeEntry now raw i = none := by
    intro i hi
    rw [List.mem_range] at hi
    unfold decodeEntry
    cases hsc : raw.scores.get? i with
    | none => rfl
    | some s =>
      have hle := h i hi s hsc
      simp [not_lt.mpr hle]
  calc (List.range raw.maxDetections).filterMap (decodeEntry now raw)
      = (List.range raw.maxDetections).filterMap (fun _ => none) :=
        List.filterMap_congr hnone
    _ = [] := by simp

theorem VEHICLE_CLASS_MAP_range (s : String) (t : VehicleType)
    (h : VEHICLE_CLASS_MAP s = some t) :
    t = .bicycle ∨ t = .car ∨ t = .motorcycle ∨ t = .bus ∨ t = .truck := by
  unfold VEHICLE_CLASS_MAP at h
  split_ifs at h <;> simp_all

theorem decodeEntry_inv (now : ℕ) (raw : RawOutput) (i : ℕ) (d : DetectedVehicle)
    (h : decodeEntry now raw i = some d) :
    ∃ score, raw.scores.get? i = some score ∧ score > 3/10 ∧
      ∃ t, VEHICLE_CLASS_MAP (match raw.classes.get? i with
                              | some c => cocoClassName c
                              | none => "unknown") = some t ∧
        d = { id := mkVehicleId now i, type := t, confidence := score,
              bbox := { x := raw.boxes.getD (i * 4 + 1) 0 * 320
                        y := raw.boxes.getD (i * 4) 0 * 320
                        width := (raw.boxes.getD (i * 4 + 3) 0 - raw.boxes.getD (i * 4 + 1) 0) * 320
                        height := (raw.boxes.getD (i * 4 + 2) 0 - raw.boxes.getD (i * 4) 0) * 320 }
              licensePlate := "" } := by
  unfold decodeEntry at h
  cases hsc : raw.scores.get? i with
  | none => rw [hsc] at h; exact absurd h (by simp)
  | some score =>
    rw [hsc] at h
    dsimp only at h
    refine ⟨score, rfl, ?_⟩
    by_cases hgt : score > 3/10
    · rw [if_pos hgt] at h
      refine ⟨hgt, ?_⟩
      cases hmap : VEHICLE_CLASS_MAP (match raw.classes.get? i with
                                      | some c => cocoClassName c
                                      | none => "unknown") with
      | none => rw [hmap] at h; exact absurd h (by simp)
      | some t =>
        rw [hmap] at h
        exact ⟨t, rfl, (Option.some_injective _ h).symm⟩
    · rw [if_neg hgt] at h
      exact absurd h (by simp)

/-! ## Concrete decoder evaluations -/

theorem decodeEntry_rawC4 : decodeEntry 1000 rawC4 0 = some carDet1000 := by
  have hmap : VEHICLE_CLASS_MAP (cocoClassName 2) = some VehicleType.car := rfl
  simp only [decodeEntry, rawC4, carDet1000]
  norm_num [hmap, mkVehicleId]
  rfl

theorem postProcessCore_rawC4 : postProcessCore 1000 rawC4 = [carDet1000] := by
  have hK : rawC4.maxDetections = 1 := rfl
  simp [postProcessCore, hK, List.range_succ, decodeEntry_rawC4]

theorem postProcessCore_rawScore03 : postProcessCore 0 rawScore03 = [] := by
  apply postProcessCore_low_scores
  intro i hi s hs
  have hK : rawScore03.maxDetections = 1 := rfl
  have hi0 : i = 0 := by omega
  subst hi0
  have hget : rawScore03.scores.get? 0 = some (3/10) := rfl
  rw [hget] at hs
  injection hs with h
  exact le_of_eq h.symm

theorem decodeEntry_030001 :
    decodeEntry 0 rawScore030001 0 =
      some { id := "vehicle_0_0", type := .car, confidence := 30001/100000,
             bbox := ⟨64, 32, 128, 128⟩, licensePlate := "" } := by
  have hmap : VEHICLE_CLASS_MAP (cocoClassName 2) = some VehicleType.car := rfl
  simp only [decodeEntry, rawScore030001, rawC4]
  norm_num [hmap, mkVehicleId]
  rfl

theorem postProcessCore_030001 : (postProcessCore 0 rawScore030001).length = 1 := by
  have hK : rawScore030001.maxDetections = 1 := rfl
  simp [postProcessCore, hK, List.range_succ, decodeEntry_030001]

theorem decodeEntry_score_out_of_range (now : ℕ) (raw : RawOutput) (i : ℕ)
    (h : raw.scores.length ≤ i) : decodeEntry now raw i = none := by
  unfold decodeEntry
  rw [List.get?_eq_none.mpr h]

theorem decodeEntry_rawWrongLen :
    ∃ d, decodeEntry 0 rawWrongLen 0 = some d ∧
      d.id = "vehicle_0_0" ∧ d.type = .car ∧ d.confidence = 9/10 := by
  have hmap : VEHICLE_CLASS_MAP (cocoClassName 2) = some VehicleType.car := rfl
  refine ⟨{ id := "vehicle_0_0", type := .car, confidence := 9/10,
            bbox := ⟨0, 0, 0, 0⟩, licensePlate := "" }, ?_, rfl, rfl, rfl⟩
  simp only [decodeEntry, rawWrongLen]
  norm_num [hmap, mkVehicleId]
  rfl

theorem postProcessCore_rawWrongLen :
    (postProcessCore 0 rawWrongLen).length = 1 := by
  obtain ⟨d, hd, -⟩ := decodeEntry_rawWrongLen
  have hK : rawWrongLen.maxDetections = 1 := rfl
  simp [postProcessCore, hK, List.range_succ, hd]

/-! ## Simulation helper lemmas -/

theorem mem_vehicleTypes_getD (n : ℕ) (h : n < 6) :
    vehicleTypes.getD n .unknown ∈ vehicleTypes ∧
    vehicleTypes.getD n .unknown ≠ .unknown := by
  interval_cases n <;> exact ⟨by decide, by decide⟩

theorem simulateDetection_length_bounds (now : ℕ) (r : ℕ → ℚ)
    (h0 : 0 ≤ r 1) (h1 : r 1 < 1) (hne : ¬ r 0 < 3/10) :
    1 ≤ (simulateDetection now r).length ∧ (simulateDetection now r).length ≤ 3 := by
  have hfl : ⌊r 1 * 3⌋₊ < 3 := by
    rw [Nat.floor_lt (mul_nonneg h0 (by norm_num))]
    push_cast
    nlinarith
  simp [simulateDetection, hne]
  omega

theorem simulateOne_bounds (now : ℕ) (r : ℕ → ℚ)
    (hr : ∀ k, 0 ≤ r k ∧ r k < 1) (i : ℕ) :
    (simulateOne now r i).type ∈ vehicleTypes ∧
    (simulateOne now r i).type ≠ .unknown ∧
    7/10 ≤ (simulateOne now r i).confidence ∧ (simulateOne now r i).confidence < 1 ∧
    0 ≤ (simulateOne now r i).bbox.x ∧ (simulateOne now r i).bbox.x < 300 ∧
    0 ≤ (simulateOne now r i).bbox.y ∧ (simulateOne now r i).bbox.y < 300 ∧
    50 ≤ (simulateOne now r i).bbox.width ∧ (simulateOne now r i).bbox.width < 150 ∧
    30 ≤ (simulateOne now r i).bbox.height ∧ (simulateOne now r i).bbox.height < 110 := by
  simp only [simulateOne]
  have hidx : ⌊r (2 + 13 * i) * 6⌋₊ < 6 := by
    rw [Nat.floor_lt (mul_nonneg (hr _).1 (by norm_num))]
    push_cast
    nlinarith [(hr (2 + 13 * i)).1, (hr (2 + 13 * i)).2]
  obtain ⟨hm, hu⟩ := mem_vehicleTypes_getD _ hidx
  have h1 := (hr (2 + 13 * i + 1)).1
  have h2 := (hr (2 + 13 * i + 1)).2
  have h3 := (hr (2 + 13 * i + 2)).1
  have h4 := (hr (2 + 13 * i + 2)).2
  have h5 := (hr (2 + 13 * i + 3)).1
  have h6 := (hr (2 + 13 * i + 3)).2
  have h7 := (hr (2 + 13 * i + 4)).1
  have h8 := (hr (2 + 13 * i + 4)).2
  have h9 := (hr (2 + 13 * i + 5)).1
  have h10 := (hr (2 + 13 * i + 5)).2
  exact ⟨hm, hu, by nlinarith, by nlinarith, by nlinarith, by nlinarith, by nlinarith,
    by nlinarith, by nlinarith, by nlinarith, by nlinarith, by nlinarith⟩

theorem simTypeStream_range (t : ℕ) (ht : t < 6) (k : ℕ) :
    0 ≤ simTypeStream t k ∧ simTypeStream t k < 1 := by
  unfold simTypeStream
  split
  · norm_num
  · constructor
    · positivity
    · rw [div_lt_one (by norm_num)]
      have hc : (t : ℚ) ≤ 5 := by exact_mod_cast Nat.lt_succ_iff.mp ht
      linarith

theorem simTypeStream_eval (t : ℕ) :
    (simulateDetection 0 (simTypeStream t)).map (fun d => d.type) =
      [vehicleTypes.getD t .unknown, vehicleTypes.getD t .unknown] := by
  have h1 : ⌊(3/2 : ℚ)⌋₊ = 1 := by rw [Nat.floor_eq_iff (by norm_num)]; norm_num
  have h2 : ⌊(2 * (t : ℚ) + 1) / 12 * 6⌋₊ = t := by
    rw [Nat.floor_eq_iff (by positivity)]
    constructor
    · nlinarith
    · nlinarith
  norm_num [simulateDetection, simTypeStream, simulateOne, vehicleTypes,
    List.range_succ, h1, h2]

theorem simStream9_eval : simulateDetection 1000 simStream9 = [simDet1000] := by
  norm_num [simulateDetection, simStream9, simulateOne, vehicleTypes, mkVehicleId,
    generateLicensePlate, charAt, List.range_succ, simDet1000]
  exact ⟨rfl, rfl⟩

/-! ## C3 .. C9 -/

/-- C3: the decoder considers only the first `K = numDetections[0]` entries
(two raw outputs agreeing on `K` and on the first `K` scores/classes and
first `4K` box values decode identically, whatever lies beyond); with
`K = 0`, or with every considered score `≤ 0.3`, it returns the empty
list; a score of exactly `0.3` is rejected (the comparison is strict `>`)
while `0.30001` is accepted. -/
theorem C3_decoder_first_K_and_threshold :
    (∀ now (raw raw' : RawOutput),
       raw.maxDetections = raw'.maxDetections →
       (∀ i < raw.maxDetections, raw.scores.get? i = raw'.scores.get? i) →
       (∀ i < raw.maxDetections, raw.classes.get? i = raw'.classes.get? i) →
       (∀ j < raw.maxDetections * 4, raw.boxes.getD j 0 = raw'.boxes.getD j 0) →
       postProcessCore now raw = postProcessCore now raw') ∧
    (∀ now (raw : RawOutput), raw.maxDetections = 0 → postProcessCore now raw = []) ∧
    (∀ now (raw : RawOutput),
       (∀ i < raw.maxDetections, ∀ s, raw.scores.get? i = some s → s ≤ 3/10) →
       postProcessCore now raw = []) ∧
    postProcessCore 0 rawScore03 = [] ∧
    (postProcessCore 0 rawScore030001).length = 1 :=
  ⟨postProcessCore_first_K, postProcessCore_K0, postProcessCore_low_scores,
   postProcessCore_rawScore03, postProcessCore_030001⟩

/-- Witness for C3: the general parts instantiated at concrete raw outputs
(`rawTailJunk` differs from `rawC4` only beyond `K`; `rawK0` has `K = 0`;
`rawLow` has both scores `≤ 0.3`). -/
theorem C3_decoder_first_K_and_threshold_witness :
    postProcessCore 0 rawC4 = postProcessCore 0 rawTailJunk ∧
    postProcessCore 0 rawK0 = [] ∧
    postProcessCore 0 rawLow = [] ∧
    postProcessCore 0 rawScore03 = [] ∧
    (postProcessCore 0 rawScore030001).length = 1 := by
  obtain ⟨h1, h2, h3, h4, h5⟩ := C3_decoder_first_K_and_threshold
  have hK4 : rawC4.maxDetections = 1 := rfl
  have hKL : rawLow.maxDetections = 2 := rfl
  refine ⟨h1 0 rawC4 rawTailJunk rfl ?_ ?_ ?_, h2 0 rawK0 rfl, h3 0 rawLow ?_, h4, h5⟩
  · intro i hi
    have hi0 : i = 0 := by omega
    subst hi0; rfl
  · intro i hi
    have hi0 : i = 0 := by omega
    subst hi0; rfl
  · intro j hj
    have hj4 : j < 4 := by omega
    interval_cases j <;> rfl
  · intro i hi s hs
    have hi2 : i < 2 := by omega
    interval_cases i
    · have hget : rawLow.scores.get? 0 = some (3/10) := rfl
      rw [hget] at hs
      injection hs with h
      exact le_of_eq h.symm
    · have hget : rawLow.scores.get? 1 = some (1/5) := rfl
      rw [hget] at hs
      injection hs with h
      rw [← h]
      norm_num

/-- C4: every emitted detection's bounding box is exactly
`x = x1*320, y = y1*320, width = (x2-x1)*320, height = (y2-y1)*320` where
`[y1, x1, y2, x2]` is row `i` of `boxes`; in particular the normalized box
`[0.1, 0.2, 0.5, 0.6]` decodes to `{x:64, y:32, width:128, height:128}`. -/
theorem C4_bbox_transform :
    (∀ now (raw : RawOutput) (i : ℕ) (d : DetectedVehicle),
       decodeEntry now raw i = some d →
       d.bbox.x = raw.boxes.getD (i * 4 + 1) 0 * 320 ∧
       d.bbox.y = raw.boxes.getD (i * 4) 0 * 320 ∧
       d.bbox.width = (raw.boxes.getD (i * 4 + 3) 0 - raw.boxes.getD (i * 4 + 1) 0) * 320 ∧
       d.bbox.height = (raw.boxes.getD (i * 4 + 2) 0 - raw.boxes.getD (i * 4) 0) * 320) ∧
    (postProcessCore 1000 rawC4).map (fun d => d.bbox) =
      [{ x := 64, y := 32, width := 128, height := 128 }] := by
  constructor
  · intro now raw i d h
    obtain ⟨score, -, -, t, -, hd⟩ := decodeEntry_inv now raw i d h
    subst hd
    exact ⟨rfl, rfl, rfl, rfl⟩
  · rw [postProcessCore_rawC4]
    rfl

/-- Witness for C4: the general transform applied to the detection decoded
from `rawC4`. -/
theorem C4_bbox_transform_witness :
    carDet1000.bbox.x = rawC4.boxes.getD (0 * 4 + 1) 0 * 320 ∧
    carDet1000.bbox.y = rawC4.boxes.getD (0 * 4) 0 * 320 ∧
    carDet1000.bbox.width =
      (rawC4.boxes.getD (0 * 4 + 3) 0 - rawC4.boxes.getD (0 * 4 + 1) 0) * 320 ∧
    carDet1000.bbox.height =
      (rawC4.boxes.getD (0 * 4 + 2) 0 - rawC4.boxes.getD (0 * 4) 0) * 320 :=
  C4_bbox_transform.1 1000 rawC4 0 carDet1000 decodeEntry_rawC4

/-- C5 counterexample: the claim says the simulated categories come from a
set of five known non-`unknown` types, but `vehicleTypes`
(`Object.values(VehicleType)` minus `UNKNOWN`) has six members and every
one of them is reachable with in-range `Math.random()` draws, so no
five-element category set can contain all simulator output. -/
theorem C5_counterexample :
    ¬ ∃ S : Finset VehicleType, S.card = 5 ∧
      ∀ r : ℕ → ℚ, (∀ k, 0 ≤ r k ∧ r k < 1) →
        ∀ d ∈ simulateDetection 0 r, d.type ∈ S := by
  rintro ⟨S, hcard, hall⟩
  have key : ∀ t : ℕ, t < 6 → vehicleTypes.getD t .unknown ∈ S := by
    intro t ht
    have hmem : vehicleTypes.getD t .unknown ∈
        (simulateDetection 0 (simTypeStream t)).map (fun d => d.type) := by
      rw [simTypeStream_eval t]
      exact List.mem_cons_self _ _
    obtain ⟨d, hd, hdt⟩ := List.mem_map.mp hmem
    rw [← hdt]
    exact hall (simTypeStream t) (simTypeStream_range t ht) d hd
  have h0 := key 0 (by omega)
  have h1 := key 1 (by omega)
  have h2 := key 2 (by omega)
  have h3 := key 3 (by omega)
  have h4 := key 4 (by omega)
  have h5 := key 5 (by omega)
  rw [show vehicleTypes.getD 0 .unknown = .car from rfl] at h0
  rw [show vehicleTypes.getD 1 .unknown = .bus from rfl] at h1
  rw [show vehicleTypes.getD 2 .unknown = .truck from rfl] at h2
  rw [show vehicleTypes.getD 3 .unknown = .motorcycle from rfl] at h3
  rw [show vehicleTypes.getD 4 .unknown = .bicycle from rfl] at h4
  rw [show vehicleTypes.getD 5 .unknown = .van from rfl] at h5
  have hsub : ({VehicleType.car, VehicleType.bus, VehicleType.truck,
      VehicleType.motorcycle, VehicleType.bicycle, VehicleType.van} :
      Finset VehicleType) ⊆ S := by
    intro x hx
    fin_cases hx <;> assumption
  have hsix : ({VehicleType.car, VehicleType.bus, VehicleType.truck,
      VehicleType.motorcycle, VehicleType.bicycle, VehicleType.van} :
      Finset VehicleType).card = 6 := by decide
  have hle := Finset.card_le_card hsub
  omega

/-- C5 (amended: six non-`unknown` categories, not five): for every call
whose `Math.random()` draws lie in `[0, 1)`: a first draw `< 0.3` yields
the empty list; otherwise between 1 and 3 detections; and every simulated
detection has a category among the six non-`unknown` types (including
`van`), confidence in `[0.7, 1)`, position in `[0, 300)`, width in
`[50, 150)` and height in `[30, 110)`. -/
theorem C5_simulation_bounds (now : ℕ) (r : ℕ → ℚ)
    (hr : ∀ k, 0 ≤ r k ∧ r k < 1) :
    (r 0 < 3/10 → simulateDetection now r = []) ∧
    (¬ r 0 < 3/10 →
       1 ≤ (simulateDetection now r).length ∧ (simulateDetection now r).length ≤ 3) ∧
    ∀ d ∈ simulateDetection now r,
      d.type ∈ vehicleTypes ∧ d.type ≠ .unknown ∧
      7/10 ≤ d.confidence ∧ d.confidence < 1 ∧
      0 ≤ d.bbox.x ∧ d.bbox.x < 300 ∧ 0 ≤ d.bbox.y ∧ d.bbox.y < 300 ∧
      50 ≤ d.bbox.width ∧ d.bbox.width < 150 ∧
      30 ≤ d.bbox.height ∧ d.bbox.height < 110 := by
  refine ⟨fun h => by simp [simulateDetection, h],
    fun h => simulateDetection_length_bounds now r (hr 1).1 (hr 1).2 h, ?_⟩
  intro d hd
  by_cases h0 : r 0 < 3/10
  · simp [simulateDetection, h0] at hd
  · rw [show simulateDetection now r =
        (List.range (⌊r 1 * 3⌋₊ + 1)).map (simulateOne now r) from by
      simp [simulateDetection, h0]] at hd
    obtain ⟨i, -, hi⟩ := List.mem_map.mp hd
    rw [← hi]
    exact simulateOne_bounds now r hr i

/-- Witness for C5: the amended theorem instantiated at the constant
stream `1/2`. -/
theorem C5_simulation_bounds_witness :
    ¬ halfStream 0 < 3/10 ∧
    1 ≤ (simulateDetection 0 halfStream).length ∧
    (simulateDetection 0 halfStream).length ≤ 3 := by
  have h := C5_simulation_bounds 0 halfStream (fun k => by norm_num [halfStream])
  have hne : ¬ halfStream 0 < 3/10 := by norm_num [halfStream]
  exact ⟨hne, h.2.1 hne⟩

/-- C6: the real decoder can only emit `bicycle`, `car`, `motorcycle`,
`bus` or `truck` — never `van` and never `unknown` — because those five are
the only values of `VEHICLE_CLASS_MAP`; the simulation generator, in
contrast, can produce `van`. -/
theorem C6_decoder_never_van :
    (∀ now (p : Predictions) (d : DetectedVehicle),
       d ∈ postProcessDetections now p →
       d.type ≠ .van ∧ d.type ≠ .unknown ∧
       (d.type = .bicycle ∨ d.type = .car ∨ d.type = .motorcycle ∨
        d.type = .bus ∨ d.type = .truck)) ∧
    ∃ d ∈ simulateDetection 0 vanStream, d.type = .van := by
  constructor
  · intro now p d hd
    cases p with
    | malformed => simp [postProcessDetections, decodeResult] at hd
    | wellFormed raw =>
      have hd' : d ∈ postProcessCore now raw := hd
      obtain ⟨i, -, hde⟩ := List.mem_filterMap.mp hd'
      obtain ⟨score, -, -, t, hmap, hdrec⟩ := decodeEntry_inv now raw i d hde
      subst hdrec
      rcases VEHICLE_CLASS_MAP_range _ _ hmap with h | h | h | h | h <;>
        subst h <;> exact ⟨by simp, by simp, by simp⟩
  · have hmem : VehicleType.van ∈
        (simulateDetection 0 vanStream).map (fun d => d.type) := by
      rw [show vanStream = simTypeStream 5 from rfl, simTypeStream_eval 5]
      exact List.mem_cons_self _ _
    obtain ⟨d, hd, hdt⟩ := List.mem_map.mp hmem
    exact ⟨d, hd, hdt⟩

/-- Witness for C6: the category restriction applied to the detection
decoded from `rawC4`. -/
theorem C6_decoder_never_van_witness :
    carDet1000.type ≠ VehicleType.van ∧ carDet1000.type ≠ VehicleType.unknown ∧
    (carDet1000.type = .bicycle ∨ carDet1000.type = .car ∨
     carDet1000.type = .motorcycle ∨ carDet1000.type = .bus ∨
     carDet1000.type = .truck) :=
  C6_decoder_never_van.1 1000 (.wellFormed rawC4) carDet1000 (by
    show carDet1000 ∈ postProcessCore 1000 rawC4
    rw [postProcessCore_rawC4]
    exact List.mem_cons_self _ _)

/-- C7 counterexample: the claim fails on the code in both directions.
First, the wrong-length output `rawWrongLen` (`boxes = []` but one valid
score/class entry and `K = 1`) is malformed in the claim's sense, yet the
decode step raises no error at all and emits a NON-empty result (one
garbage-boxed detection), refuting "fails with DecodeError and returns no
partial results".  Second, on a missing-tensor output the error that IS
raised internally is caught by `postProcessDetections` itself, which
returns `[]` — the very value a genuine zero-detection cycle returns — so
the failure is not observable by the caller, refuting "observable rather
than silently swallowed". -/
theorem C7_counterexample :
    (∃ ds, decodeResult 0 (.wellFormed rawWrongLen) = .ok ds ∧ ds.length = 1) ∧
    decodeResult 0 .malformed = .error "TypeError" ∧
    postProcessDetections 0 .malformed = [] ∧
    postProcessDetections 0 .malformed =
      postProcessDetections 0 (.wellFormed emptyRaw) :=
  ⟨⟨postProcessCore 0 rawWrongLen, rfl, postProcessCore_rawWrongLen⟩, rfl, rfl, rfl⟩

/-- C7 (amended): only a prediction list with missing tensors makes the
decode step raise an error, and `postProcessDetections` catches it and
returns the empty list, so the caller receives an empty detection set and
cannot observe the failure; a wrong-length but four-array raw output
raises no error at all — entries whose score read is out of range are
silently skipped, while an entry with a valid score and class is emitted
even when its box values are missing (`NaN` coordinates in JS), so a
malformed output can yield a non-empty result. -/
theorem C7_decode_error_absorbed (now : ℕ) :
    ((∃ e, decodeResult now .malformed = .error e) ∧
     postProcessDetections now .malformed = []) ∧
    (∀ raw : RawOutput,
       decodeResult now (.wellFormed raw) = .ok (postProcessCore now raw)) ∧
    (∀ (raw : RawOutput) (i : ℕ), raw.scores.length ≤ i →
       decodeEntry now raw i = none) ∧
    (postProcessDetections 0 (.wellFormed rawWrongLen)).length = 1 :=
  ⟨⟨⟨"TypeError", rfl⟩, rfl⟩, fun _ => rfl,
   fun raw i h => decodeEntry_score_out_of_range now raw i h,
   postProcessCore_rawWrongLen⟩

/-- Witness for C7 (amended): the out-of-range-score part instantiated at
`rawWrongLen` and index `5` (its `scores` array has length `1`). -/
theorem C7_decode_error_absorbed_witness :
    rawWrongLen.scores.length ≤ 5 ∧ decodeEntry 0 rawWrongLen 5 = none ∧
    postProcessDetections 0 .malformed = [] := by
  have h := C7_decode_error_absorbed 0
  have hlen : rawWrongLen.scores.length ≤ 5 := by
    show (1 : ℕ) ≤ 5
    omega
  exact ⟨hlen, h.2.2.1 rawWrongLen 5 hlen, h.1.2⟩

/-- C8: `initialize` never propagates the model-load outcome as an
exception (in the embedding it is a total function of the outcome): on
success the adapter reports ready, on failure it reports fallback and a
subsequent `detectVehicles` call returns exactly the simulation path's
detections. -/
theorem C8_initialize_absorbs_failure :
    (∀ st, isRealModelLoaded (initializeService st .success) = true) ∧
    (∀ st, isRealModelLoaded (initializeService st .failure) = false) ∧
    (∀ st now outcome r,
       (detectVehicles (initializeService st .failure) now outcome r).2 =
         simulateDetection now r) :=
  ⟨fun _ => rfl, fun _ => rfl, fun _ _ _ _ => rfl⟩

/-- C9 (id collision): two calls in the same `Date.now()` millisecond —
here one decode call and one simulation call at `now = 1000` — produce two
distinct detections carrying the identical id `vehicle_1000_0`, violating
session-unique ids. -/
theorem C9_id_collision :
    ∃ d1 d2 : DetectedVehicle,
      d1 ∈ postProcessCore 1000 rawC4 ∧
      d2 ∈ simulateDetection 1000 simStream9 ∧
      d1 ≠ d2 ∧ d1.id = d2.id := by
  refine ⟨carDet1000, simDet1000, ?_, ?_, ?_, rfl⟩
  · rw [postProcessCore_rawC4]
    exact List.mem_cons_self _ _
  · rw [simStream9_eval]
    exact List.mem_cons_self _ _
  · intro h
    have hpl := congrArg (fun d => d.licensePlate) h
    simp only [carDet1000, simDet1000] at hpl
    exact absurd hpl (by decide)
